import Mathlib

/-!
Shallow embedding of the mongosh CLI REPL evaluation pipeline
(src/packages/cli-repl/src/cli-repl.ts) and of the editor component whose
behavioural contract is given by src/packages/editor/src/editor.spec.ts.

The REPL host, the mongosh mapper hooks and the parser-based rewriter
(mongosh-mapper compile) are external collaborators; they appear as
parameters of the embedding.  The per-line mutable state (the REPL context
and the mapper fields checkAwait, awaitLoc, cursorAssigned) is threaded
explicitly; mutations persist across an evaluation even when it throws,
exactly as in JavaScript.
-/

/-- JavaScript String.prototype.trim on the character list of a string:
whitespace is stripped from both ends. -/
def jsTrim (s : String) : String :=
  String.mk (((s.data.dropWhile Char.isWhitespace).reverse.dropWhile Char.isWhitespace).reverse)

/-- JavaScript String.prototype.split with a one-character separator:
an empty string yields one empty field, adjacent separators yield empty
fields, same as in JavaScript. -/
def splitOnChar (sep : Char) : List Char → List (List Char)
  | [] => [[]]
  | c :: rest =>
    if c = sep then [] :: splitOnChar sep rest
    else
      match splitOnChar sep rest with
      | [] => [[c]]
      | w :: ws => (c :: w) :: ws

/-- JavaScript split lifted to strings. -/
def jsSplit (sep : Char) (s : String) : List String :=
  (splitOnChar sep s.data).map String.mk

/-- Errors thrown by an evaluation pass. -/
inductive Err where
  | evalError : String → Err
deriving DecidableEq

/-- Evaluated values, as a closed set of variants for output formatting:
a plain string, a value exposing a custom toReplString rendering, and any
other value carrying its structural description. -/
inductive Value where
  | vStr : String → Value
  | vRepl : String → Value
  | vOther : String → Value
deriving DecidableEq

/-- Model of the generic structural pretty-printer util.inspect used by the
writer for values that are neither strings nor custom-renderable. -/
def utilInspect (o : String) : String := "[inspect " ++ o ++ "]"

/-- writer from cli-repl.ts: if the output has a toReplString method its
rendering is returned; a string is returned unchanged; anything else goes
through util.inspect. -/
def writer : Value → String
  | Value.vRepl r => r
  | Value.vStr t => t
  | Value.vOther o => utilInspect o

/-- What evaluator hands back: a shell-API value returned directly (the
builtin verbs) or the string produced by applying the writer. -/
inductive EvalResult where
  | raw : Value → EvalResult
  | written : String → EvalResult
deriving DecidableEq

/-- The shell-API values returned by the builtin verb handlers. -/
structure ShellApiModel where
  useResult : Option String → Value
  itResult : Value
  helpVal : Value

/-- Record of builtin verb handler invocations: the observable side effects
of shellApi.use, shellApi.it and the help access, in invocation order. -/
structure ShellCalls where
  uses : List (Option String)
  its : Nat
  helps : Nat
deriving DecidableEq

/-- The state visible to one evaluation: the REPL context plus the mapper
fields checkAwait, awaitLoc and cursorAssigned, and the record of builtin
handler invocations. -/
structure EvalState (Ctx : Type) where
  ctx : Ctx
  checkAwait : Bool
  awaitLoc : List Nat
  cursorAssigned : Bool
  calls : ShellCalls
deriving DecidableEq

/-- The host eval primitive (the promisified node REPL eval): it receives
the code, the context, the mapper flags checkAwait and cursorAssigned that
the runtime hooks observe, and the awaitLoc list the hooks may extend; it
returns the mutated context, the new location list, and a value or an
error.  Context and location mutations persist even when it throws. -/
abbrev HostEval (Ctx : Type) :=
  String → Ctx → Bool → Bool → List Nat → Ctx × List Nat × Except Err Value

/-- First whitespace-separated token of the line:
the head of the whitespace split of the trimmed input in evaluator of cli-repl.ts. -/
def firstToken (input : String) : String := (jsSplit ' ' (jsTrim input)).headD ""

/-- The argument handed to shellApi.use: argv[0] after the shift, i.e. the
second whitespace-separated token, absent when the line has only one. -/
def useArg (input : String) : Option String := (jsSplit ' ' (jsTrim input)).tail.head?

/-- The switch fall-through in evaluator: a line whose first token is the
reserved word var sets mapper.cursorAssigned before the default branch
(the evaluate-and-print step) runs; every other line leaves it alone. -/
def evalStateForDefault {Ctx : Type} (input : String) (s : EvalState Ctx) : EvalState Ctx :=
  if firstToken input = "var" then { s with cursorAssigned := true } else s

/-- evaluator from cli-repl.ts: the builtin verbs use, it and help() are
intercepted and answered from the shell API without touching the host eval
primitive; every other line (var included, after its fall-through state
update) is evaluated by the host primitive and the value is passed through
the writer. -/
def evaluator {Ctx : Type} (api : ShellApiModel) (oe : HostEval Ctx) (input : String)
    (s : EvalState Ctx) : EvalState Ctx × Except Err EvalResult :=
  if firstToken input = "use" then
    ({ s with calls := { s.calls with uses := s.calls.uses ++ [useArg input] } },
      Except.ok (EvalResult.raw (api.useResult (useArg input))))
  else if firstToken input = "it" then
    ({ s with calls := { s.calls with its := s.calls.its + 1 } },
      Except.ok (EvalResult.raw api.itResult))
  else if firstToken input = "help()" then
    ({ s with calls := { s.calls with helps := s.calls.helps + 1 } },
      Except.ok (EvalResult.raw api.helpVal))
  else
    match oe input (evalStateForDefault input s).ctx (evalStateForDefault input s).checkAwait
        (evalStateForDefault input s).cursorAssigned (evalStateForDefault input s).awaitLoc with
    | (ctx2, loc2, Except.error e) =>
        ({ evalStateForDefault input s with ctx := ctx2, awaitLoc := loc2 }, Except.error e)
    | (ctx2, loc2, Except.ok v) =>
        ({ evalStateForDefault input s with ctx := ctx2, awaitLoc := loc2 },
          Except.ok (EvalResult.written (writer v)))

/-- The dry-run pass of customEval: mapper.checkAwait is set, mapper.awaitLoc
is cleared, and the input is evaluated once against copyCtx.  In the source
copyCtx is the very same object as the real context (const copyCtx = context,
with the deep clone commented out), which the embedding renders by threading
one state through both passes. -/
def dryRunCE {Ctx : Type} (api : ShellApiModel) (oe : HostEval Ctx) (input : String)
    (s : EvalState Ctx) : EvalState Ctx × Except Err EvalResult :=
  evaluator api oe input { s with checkAwait := true, awaitLoc := [] }

/-- The state in which the second (real) evaluation pass starts when the dry
run returned normally: checkAwait is cleared and everything else — the
context included — carries over from the dry run. -/
def realPassState {Ctx : Type} (api : ShellApiModel) (oe : HostEval Ctx) (input : String)
    (s : EvalState Ctx) : EvalState Ctx :=
  { (dryRunCE api oe input s).1 with checkAwait := false }

/-- The try block of customEval: with rewriting enabled (useAntlr) run the
dry-run pass, compile the input with the collected awaitLoc list into the
rewritten text, and evaluate that text for real; with rewriting disabled
evaluate the input once.  An error in any pass propagates. -/
def customEvalBody {Ctx : Type} (useAntlr : Bool) (api : ShellApiModel)
    (cp : String → List Nat → String) (oe : HostEval Ctx) (input : String)
    (s : EvalState Ctx) : EvalState Ctx × Except Err EvalResult :=
  if useAntlr then
    match (dryRunCE api oe input s).2 with
    | Except.error e => ((dryRunCE api oe input s).1, Except.error e)
    | Except.ok _ =>
        evaluator api oe (cp input (dryRunCE api oe input s).1.awaitLoc)
          (realPassState api oe input s)
  else
    evaluator api oe input s

/-- customEval from cli-repl.ts: the try block runs, the callback receives
the outcome (the value on success, the error on failure), and the finally
clause resets mapper.cursorAssigned — and only cursorAssigned — on every
path.  The pair is (state after the finally clause, delivered outcome). -/
def customEval {Ctx : Type} (useAntlr : Bool) (api : ShellApiModel)
    (cp : String → List Nat → String) (oe : HostEval Ctx) (input : String)
    (s : EvalState Ctx) : EvalState Ctx × Except Err EvalResult :=
  ({ (customEvalBody useAntlr api cp oe input s).1 with cursorAssigned := false },
    (customEvalBody useAntlr api cp oe input s).2)

/-- Total number of builtin verb handler invocations recorded. -/
def builtinCount (c : ShellCalls) : Nat := c.uses.length + c.its + c.helps

/-- A concrete shell API used to evaluate the model on concrete lines. -/
def apiN : ShellApiModel where
  useResult := fun a => Value.vStr ("switched to " ++ a.getD "?")
  itResult := Value.vStr "it-page"
  helpVal := Value.vRepl "help-text"

/-- A host eval that increments a counter context: a line whose evaluation
has a visible side effect on the context. -/
def incrEval : HostEval Nat := fun _ c _ _ l => (c + 1, l, Except.ok (Value.vStr "done"))

/-- A host eval that always throws. -/
def failEval : HostEval Nat := fun _ c _ _ l => (c, l, Except.error (Err.evalError "boom"))

/-- A host eval with no side effect on context or location list, insensitive
to the tracking flag and to surrounding whitespace. -/
def pureEval : HostEval Nat := fun i c _ _ l => (c, l, Except.ok (Value.vStr (jsTrim i)))

/-- A compile model that rewrites nothing, consistent with an empty list of
suspension locations. -/
def idCompile : String → List Nat → String := fun s _ => s

/-- Initial per-line state: counter context 0, flags clear, nothing recorded. -/
def state0 : EvalState Nat where
  ctx := 0
  checkAwait := false
  awaitLoc := []
  cursorAssigned := false
  calls := { uses := [], its := 0, helps := 0 }

/-- Modelled from the spec: editor.ts itself is absent from the excerpt (only
its test suite is present), so the identifier grammar follows §4.1 — a
character that may start a name: a letter, an underscore or a dollar sign. -/
def isIdentStart (c : Char) : Bool := c.isAlpha || c = '_' || c = '$'

/-- Modelled from the spec: a character that may continue a name — a letter,
a digit, an underscore or a dollar sign. -/
def isIdentChar (c : Char) : Bool := c.isAlphanum || c = '_' || c = '$'

/-- Modelled from the spec: one name of a dotted identifier path — nonempty,
starting with a name-start character and continuing with name characters,
so it contains no call parentheses, brackets, quotes, operators or braces. -/
def isName (l : List Char) : Bool :=
  match l with
  | [] => false
  | c :: cs => isIdentStart c && cs.all isIdentChar

/-- Modelled from the spec: _isIdentifier of editor.ts — true iff, after
trimming whitespace, the text matches the lexical grammar of a dotted
identifier path, name(.name)* (a name may begin with a dollar sign). -/
def isIdentifier (code : String) : Bool :=
  (splitOnChar '.' (jsTrim code).data).all isName

/-- The argument record of _prepareResult. -/
structure EditorParams where
  originalCode : String
  modifiedCode : String

/-- Modelled from the spec: _prepareResult of editor.ts — if originalCode
(trimmed) is a bare identifier the result is the re-binding statement
originalCode = modifiedCode, otherwise modifiedCode unchanged. -/
def prepareResult (p : EditorParams) : String :=
  if isIdentifier p.originalCode then p.originalCode ++ " = " ++ p.modifiedCode
  else p.modifiedCode

/-- Modelled from the spec: _getEditor of editor.ts — the session
configuration value takes precedence over the environment fallback. -/
def getEditor (config envEditor : Option String) : Option String :=
  match config with
  | some c => some c
  | none => envEditor

/-- Modelled from the spec: the message surfaced when no editor is
configured, as asserted by the test suite. -/
def noEditorMessage : String :=
  "Command failed with an error: please define an external editor"

/-- Modelled from the spec: resolveEditorCommand — fails with the
NoEditorConfigured message when neither the configuration nor the
environment names an external editor. -/
def resolveEditorCommand (config envEditor : Option String) : Except String String :=
  match getEditor config envEditor with
  | some e => Except.ok e
  | none => Except.error noEditorMessage

/-- Modelled from the spec: _getEditorContent of editor.ts — an empty
argument reuses lastEditedContent (the empty string when it is unset); a
bare identifier is resolved to the source text of its currently bound value
through the host lookup; anything else is returned unchanged. -/
def getEditorContent (lastContent : Option String) (lookupSource : String → String)
    (arg : String) : String :=
  if arg = "" then
    match lastContent with
    | some c => c
    | none => ""
  else if isIdentifier arg then lookupSource arg
  else arg

theorem evalStateForDefault_ctx {Ctx : Type} (input : String) (s : EvalState Ctx) :
    (evalStateForDefault input s).ctx = s.ctx := by
  unfold evalStateForDefault; split <;> rfl

theorem evalStateForDefault_checkAwait {Ctx : Type} (input : String) (s : EvalState Ctx) :
    (evalStateForDefault input s).checkAwait = s.checkAwait := by
  unfold evalStateForDefault; split <;> rfl

theorem evalStateForDefault_awaitLoc {Ctx : Type} (input : String) (s : EvalState Ctx) :
    (evalStateForDefault input s).awaitLoc = s.awaitLoc := by
  unfold evalStateForDefault; split <;> rfl

theorem evalStateForDefault_calls {Ctx : Type} (input : String) (s : EvalState Ctx) :
    (evalStateForDefault input s).calls = s.calls := by
  unfold evalStateForDefault; split <;> rfl

theorem evalStateForDefault_cursorAssigned {Ctx : Type} (input : String) (s : EvalState Ctx) :
    (evalStateForDefault input s).cursorAssigned
      = (decide (firstToken input = "var") || s.cursorAssigned) := by
  unfold evalStateForDefault
  split
  · next h => simp [h]
  · next h => simp [h]

theorem evaluator_checkAwait {Ctx : Type} (api : ShellApiModel) (oe : HostEval Ctx)
    (input : String) (s : EvalState Ctx) :
    (evaluator api oe input s).1.checkAwait = s.checkAwait := by
  unfold evaluator
  split
  · rfl
  · split
    · rfl
    · split
      · rfl
      · split <;> exact evalStateForDefault_checkAwait input s

theorem evaluator_pure {Ctx : Type} (api : ShellApiModel) (oe : HostEval Ctx)
    (g : String → Ctx → Bool → Except Err Value) (input : String) (s : EvalState Ctx)
    (hg : ∀ i c b₁ b₂ l, oe i c b₁ b₂ l = (c, l, g (jsTrim i) c b₂))
    (hu : firstToken input ≠ "use") (hi : firstToken input ≠ "it")
    (hh : firstToken input ≠ "help()") :
    evaluator api oe input s =
      (evalStateForDefault input s,
        match g (jsTrim input) (evalStateForDefault input s).ctx
            (evalStateForDefault input s).cursorAssigned with
        | Except.error e => Except.error e
        | Except.ok v => Except.ok (EvalResult.written (writer v))) := by
  unfold evaluator
  rw [if_neg hu, if_neg hi, if_neg hh, hg]
  cases hv : g (jsTrim input) (evalStateForDefault input s).ctx
      (evalStateForDefault input s).cursorAssigned <;> simp [hv]

/-- C1: the claim that the dry-run pass runs against a structurally
independent disposable copy of the context fails on the code: copyCtx
aliases the real context (the deep clone is commented out), so with a host
eval that increments a counter the real pass already observes the dry-run
increment (counter 1, not the initial 0), and a line with one visible side
effect ends with counter 2 under the rewriting pipeline instead of the 1
produced by a single evaluation. -/
theorem c1_dry_run_mutation_visible :
    state0.ctx = 0 ∧
    (realPassState apiN incrEval "x()" state0).ctx = 1 ∧
    (customEval true apiN idCompile incrEval "x()" state0).1.ctx = 2 ∧
    (customEval false apiN idCompile incrEval "x()" state0).1.ctx = 1 := by
  decide

/-- C2 counterexample: with rewriting enabled and a dry-run pass that
throws, customEval hands the error to the host while mapper.checkAwait is
still true — the finally clause resets only cursorAssigned, so the claim
that the tracking flag is false on every exit path is false. -/
theorem c2_counterexample :
    (customEval true apiN idCompile failEval "f()" state0).2
        = Except.error (Err.evalError "boom") ∧
    (customEval true apiN idCompile failEval "f()" state0).1.checkAwait = true :=
  ⟨rfl, by decide⟩

/-- C2 (amended): with rewriting enabled, checkAwait is false on return when
the dry-run pass returned normally (it is cleared before the real pass and
never set again, also when the real pass throws), but when the dry-run pass
throws the flag remains true on the error path — only cursorAssigned gets a
finally-style reset; with rewriting disabled the flag is never touched. -/
theorem c2_checkawait_reset_amended {Ctx : Type} (api : ShellApiModel)
    (cp : String → List Nat → String) (oe : HostEval Ctx) (input : String)
    (s : EvalState Ctx) :
    (∀ r, (dryRunCE api oe input s).2 = Except.ok r →
      (customEval true api cp oe input s).1.checkAwait = false) ∧
    (∀ e, (dryRunCE api oe input s).2 = Except.error e →
      (customEval true api cp oe input s).1.checkAwait = true) ∧
    (customEval false api cp oe input s).1.checkAwait = s.checkAwait := by
  refine ⟨?_, ?_, ?_⟩
  · intro r hr
    show (customEvalBody true api cp oe input s).1.checkAwait = false
    unfold customEvalBody
    rw [if_pos rfl, hr]
    show (evaluator api oe (cp input (dryRunCE api oe input s).1.awaitLoc)
        (realPassState api oe input s)).1.checkAwait = false
    rw [evaluator_checkAwait]
    rfl
  · intro e he
    show (customEvalBody true api cp oe input s).1.checkAwait = true
    unfold customEvalBody
    rw [if_pos rfl, he]
    show (dryRunCE api oe input s).1.checkAwait = true
    unfold dryRunCE
    rw [evaluator_checkAwait]
  · show (customEvalBody false api cp oe input s).1.checkAwait = s.checkAwait
    unfold customEvalBody
    rw [if_neg (by decide)]
    exact evaluator_checkAwait api oe input s

/-- Closed witness for the amended C2 theorem at concrete lines: a normal
dry run leaves checkAwait false, a throwing dry run leaves it true, and
without rewriting the initial false is preserved. -/
theorem c2_checkawait_reset_amended_witness :
    (customEval true apiN idCompile incrEval "x()" state0).1.checkAwait = false ∧
    (customEval true apiN idCompile failEval "f()" state0).1.checkAwait = true ∧
    (customEval false apiN idCompile incrEval "x()" state0).1.checkAwait = false :=
  ⟨(c2_checkawait_reset_amended apiN idCompile incrEval "x()" state0).1
      (EvalResult.written "done") (by rfl),
    (c2_checkawait_reset_amended apiN idCompile failEval "f()" state0).2.1
      (Err.evalError "boom") (by rfl),
    (c2_checkawait_reset_amended apiN idCompile incrEval "x()" state0).2.2⟩

/-- C5: a line whose first whitespace-separated token is the reserved word
var has mapper.cursorAssigned set to true in the state handed to the default
evaluate-and-print branch, and after customEval delivers the result
or error of any line (either pipeline mode, any evaluation outcome) the finally clause
has reset the flag to false. -/
theorem c5_cursor_assigned_flag {Ctx : Type} (input : String) (s : EvalState Ctx) :
    (firstToken input = "var" → (evalStateForDefault input s).cursorAssigned = true) ∧
    (∀ (useAntlr : Bool) (api : ShellApiModel) (cp : String → List Nat → String)
      (oe : HostEval Ctx),
      (customEval useAntlr api cp oe input s).1.cursorAssigned = false) := by
  constructor
  · intro h
    unfold evalStateForDefault
    rw [if_pos h]
  · intro b api cp oe
    rfl

/-- Closed witness for C5 at a concrete var line under both pipeline modes. -/
theorem c5_cursor_assigned_flag_witness :
    (evalStateForDefault "var x = db.coll.find()" state0).cursorAssigned = true ∧
    (customEval true apiN idCompile incrEval "var x = db.coll.find()" state0).1.cursorAssigned
      = false ∧
    (customEval false apiN idCompile incrEval "var x = db.coll.find()" state0).1.cursorAssigned
      = false :=
  ⟨(c5_cursor_assigned_flag "var x = db.coll.find()" state0).1 (by decide),
    (c5_cursor_assigned_flag "var x = db.coll.find()" state0).2 true apiN idCompile incrEval,
    (c5_cursor_assigned_flag "var x = db.coll.find()" state0).2 false apiN idCompile incrEval⟩

/-- C3 counterexample: with rewriting enabled the line use test is handled
by the shellApi.use handler twice — once in the dry-run pass and once in
the real pass — and the line flows through the dry-run/rewrite pipeline,
so the handler does not run exactly once per input line. -/
theorem c3_counterexample :
    (customEval true apiN idCompile incrEval "use test" state0).1.calls.uses
        = [some "test", some "test"] ∧
    builtinCount (customEval true apiN idCompile incrEval "use test" state0).1.calls = 2 := by
  decide

/-- C3 (amended): a line whose first token is use, it or help() is answered
from the shell API without consulting the host eval primitive (the outcome
is independent of it), and its handler runs exactly once per evaluator
call; hence exactly once per line with rewriting disabled, but twice per
line with rewriting enabled whenever the rewrite keeps the leading verb —
the builtin line still traverses the dry-run/rewrite pipeline. -/
theorem c3_builtin_verbs_amended {Ctx : Type} (api : ShellApiModel)
    (cp : String → List Nat → String) (oe oe' : HostEval Ctx) (input : String)
    (s : EvalState Ctx)
    (h : firstToken input = "use" ∨ firstToken input = "it" ∨ firstToken input = "help()") :
    evaluator api oe input s = evaluator api oe' input s ∧
    builtinCount (evaluator api oe input s).1.calls = builtinCount s.calls + 1 ∧
    builtinCount (customEval false api cp oe input s).1.calls = builtinCount s.calls + 1 ∧
    (firstToken (cp input []) = firstToken input →
      builtinCount (customEval true api cp oe input s).1.calls = builtinCount s.calls + 2) := by
  have hev : ∀ t : EvalState Ctx,
      evaluator api oe input t = evaluator api oe' input t ∧
      builtinCount (evaluator api oe input t).1.calls = builtinCount t.calls + 1 := by
    intro t
    rcases h with h | h | h <;>
      exact ⟨by simp [evaluator, h], by simp [evaluator, h, builtinCount]; omega⟩
  refine ⟨(hev s).1, (hev s).2, ?_, ?_⟩
  · show builtinCount (customEvalBody false api cp oe input s).1.calls
        = builtinCount s.calls + 1
    unfold customEvalBody
    rw [if_neg (by decide)]
    exact (hev s).2
  · intro hcp2
    show builtinCount (customEvalBody true api cp oe input s).1.calls
        = builtinCount s.calls + 2
    unfold customEvalBody
    rw [if_pos rfl]
    rcases h with h | h | h <;>
      rw [h] at hcp2 <;>
      simp [dryRunCE, realPassState, evaluator, h, hcp2, builtinCount] <;>
      omega

/-- Closed witness for the amended C3 theorem at the line use test with an
identity rewrite: one handler invocation per evaluator call and without
rewriting, two with rewriting enabled. -/
theorem c3_builtin_verbs_amended_witness :
    evaluator apiN incrEval "use test" state0 = evaluator apiN failEval "use test" state0 ∧
    builtinCount (evaluator apiN incrEval "use test" state0).1.calls = 1 ∧
    builtinCount (customEval false apiN idCompile incrEval "use test" state0).1.calls = 1 ∧
    builtinCount (customEval true apiN idCompile incrEval "use test" state0).1.calls = 2 :=
  ⟨(c3_builtin_verbs_amended apiN idCompile incrEval failEval "use test" state0
      (Or.inl (by decide))).1,
    (c3_builtin_verbs_amended apiN idCompile incrEval failEval "use test" state0
      (Or.inl (by decide))).2.1,
    (c3_builtin_verbs_amended apiN idCompile incrEval failEval "use test" state0
      (Or.inl (by decide))).2.2.1,
    (c3_builtin_verbs_amended apiN idCompile incrEval failEval "use test" state0
      (Or.inl (by decide))).2.2.2 (by decide)⟩

/-- C4 counterexample: idCompile leaves the text unchanged, so the rewritten
text is textually identical to the (trimmed) original, and the rewriting
pipeline delivers the same result value — yet it doubles the side effect on
the real context (counter 2 instead of 1), so the two evaluation paths are
not observationally equal. -/
theorem c4_counterexample :
    jsTrim (idCompile "x()" []) = jsTrim "x()" ∧
    (customEval true apiN idCompile incrEval "x()" state0).2
        = (customEval false apiN idCompile incrEval "x()" state0).2 ∧
    (customEval true apiN idCompile incrEval "x()" state0).1.ctx = 2 ∧
    (customEval false apiN idCompile incrEval "x()" state0).1.ctx = 1 :=
  ⟨rfl, rfl, by decide, by decide⟩

/-- C4 (amended): when the rewritten text trims equal to the input, the
rewriting pipeline delivers the same result value and the same final real
context as the direct single evaluation, provided the line is not a builtin
verb and the host eval neither mutates the context nor the location list,
and its value depends only on the trimmed code, the context and the
cursorAssigned flag (in particular not on the tracking flag).  Without the
purity proviso the dry-run pass re-executes the side effects on the shared
context, as the counterexample shows. -/
theorem c4_identity_rewrite_amended {Ctx : Type} (api : ShellApiModel)
    (cp : String → List Nat → String) (oe : HostEval Ctx)
    (g : String → Ctx → Bool → Except Err Value) (input : String) (s : EvalState Ctx)
    (hg : ∀ i c b₁ b₂ l, oe i c b₁ b₂ l = (c, l, g (jsTrim i) c b₂))
    (hu : firstToken input ≠ "use") (hi : firstToken input ≠ "it")
    (hh : firstToken input ≠ "help()")
    (hcp : jsTrim (cp input []) = jsTrim input) :
    (customEval true api cp oe input s).2 = (customEval false api cp oe input s).2 ∧
    (customEval true api cp oe input s).1.ctx = (customEval false api cp oe input s).1.ctx := by
  have hft : firstToken (cp input []) = firstToken input := by
    unfold firstToken jsSplit
    rw [hcp]
  have hu2 : firstToken (cp input []) ≠ "use" := by rw [hft]; exact hu
  have hi2 : firstToken (cp input []) ≠ "it" := by rw [hft]; exact hi
  have hh2 : firstToken (cp input []) ≠ "help()" := by rw [hft]; exact hh
  have h1 := evaluator_pure api oe g input { s with checkAwait := true, awaitLoc := [] }
    hg hu hi hh
  have h2 := evaluator_pure api oe g input s hg hu hi hh
  rw [evalStateForDefault_ctx, evalStateForDefault_cursorAssigned] at h1 h2
  rw [show ({ s with checkAwait := true, awaitLoc := [] } : EvalState Ctx).ctx = s.ctx
      from rfl,
    show ({ s with checkAwait := true, awaitLoc := [] } : EvalState Ctx).cursorAssigned
      = s.cursorAssigned from rfl] at h1
  have hdry1 : (dryRunCE api oe input s).1
      = evalStateForDefault input { s with checkAwait := true, awaitLoc := [] } := by
    unfold dryRunCE
    rw [h1]
  have hreal_ctx : (realPassState api oe input s).ctx = s.ctx := by
    unfold realPassState
    rw [hdry1]
    show (evalStateForDefault input { s with checkAwait := true, awaitLoc := [] }).ctx = s.ctx
    rw [evalStateForDefault_ctx]
  have hreal_cursor : (realPassState api oe input s).cursorAssigned
      = (decide (firstToken input = "var") || s.cursorAssigned) := by
    unfold realPassState
    rw [hdry1]
    show (evalStateForDefault input
        { s with checkAwait := true, awaitLoc := [] }).cursorAssigned = _
    rw [evalStateForDefault_cursorAssigned]
  have hloc : (dryRunCE api oe input s).1.awaitLoc = [] := by
    rw [hdry1, evalStateForDefault_awaitLoc]
  have h3 := evaluator_pure api oe g (cp input []) (realPassState api oe input s)
    hg hu2 hi2 hh2
  rw [evalStateForDefault_ctx, evalStateForDefault_cursorAssigned, hcp, hft,
    hreal_ctx, hreal_cursor] at h3
  have hbool : (decide (firstToken input = "var")
        || (decide (firstToken input = "var") || s.cursorAssigned))
      = (decide (firstToken input = "var") || s.cursorAssigned) := by
    cases decide (firstToken input = "var") <;> rfl
  rw [hbool] at h3
  cases hv : g (jsTrim input) s.ctx (decide (firstToken input = "var") || s.cursorAssigned) with
  | error e =>
    rw [hv] at h1 h2 h3
    constructor
    · show (customEvalBody true api cp oe input s).2 = (customEvalBody false api cp oe input s).2
      unfold customEvalBody
      rw [if_pos rfl, if_neg (by decide)]
      unfold dryRunCE
      rw [h1, h2]
    · show (customEvalBody true api cp oe input s).1.ctx
          = (customEvalBody false api cp oe input s).1.ctx
      unfold customEvalBody
      rw [if_pos rfl, if_neg (by decide)]
      unfold dryRunCE
      rw [h1, h2]
      show (evalStateForDefault input { s with checkAwait := true, awaitLoc := [] }).ctx
          = (evalStateForDefault input s).ctx
      rw [evalStateForDefault_ctx, evalStateForDefault_ctx]
  | ok v =>
    rw [hv] at h1 h2 h3
    constructor
    · show (customEvalBody true api cp oe input s).2 = (customEvalBody false api cp oe input s).2
      unfold customEvalBody
      rw [if_pos rfl, if_neg (by decide)]
      conv =>
        lhs
        rw [show (dryRunCE api oe input s).2
            = Except.ok (EvalResult.written (writer v)) by
          unfold dryRunCE; rw [h1]]
      rw [hloc, h3, h2]
    · show (customEvalBody true api cp oe input s).1.ctx
          = (customEvalBody false api cp oe input s).1.ctx
      unfold customEvalBody
      rw [if_pos rfl, if_neg (by decide)]
      conv =>
        lhs
        rw [show (dryRunCE api oe input s).2
            = Except.ok (EvalResult.written (writer v)) by
          unfold dryRunCE; rw [h1]]
      rw [hloc, h3, h2]
      show (evalStateForDefault (cp input []) (realPassState api oe input s)).ctx
          = (evalStateForDefault input s).ctx
      rw [evalStateForDefault_ctx, evalStateForDefault_ctx, hreal_ctx]

/-- Closed witness for the amended C4 theorem: with a side-effect-free host
eval and the identity rewrite, the pipeline and the direct evaluation of
x() agree on the delivered result and on the final context. -/
theorem c4_identity_rewrite_amended_witness :
    (customEval true apiN idCompile pureEval "x()" state0).2
        = (customEval false apiN idCompile pureEval "x()" state0).2 ∧
    (customEval true apiN idCompile pureEval "x()" state0).1.ctx
        = (customEval false apiN idCompile pureEval "x()" state0).1.ctx :=
  c4_identity_rewrite_amended apiN idCompile pureEval
    (fun t _ _ => Except.ok (Value.vStr t)) "x()" state0
    (fun _ _ _ _ _ => rfl) (by decide) (by decide) (by decide) rfl

/-- C10: the builtin verbs use, it and help() make evaluator return the
shell-API result directly without applying the writer, while the evaluated
value of every other line is passed through the writer, which uses the
custom toReplString rendering when present, passes strings through
unchanged and falls back to the structural util.inspect rendering. -/
theorem c10_builtin_raw_vs_writer {Ctx : Type} (api : ShellApiModel) (oe : HostEval Ctx)
    (input : String) (s : EvalState Ctx) :
    (firstToken input = "use" →
      (evaluator api oe input s).2
        = Except.ok (EvalResult.raw (api.useResult (useArg input)))) ∧
    (firstToken input = "it" →
      (evaluator api oe input s).2 = Except.ok (EvalResult.raw api.itResult)) ∧
    (firstToken input = "help()" →
      (evaluator api oe input s).2 = Except.ok (EvalResult.raw api.helpVal)) ∧
    (firstToken input ≠ "use" → firstToken input ≠ "it" → firstToken input ≠ "help()" →
      ∀ ctx2 loc2 v,
        oe input (evalStateForDefault input s).ctx (evalStateForDefault input s).checkAwait
            (evalStateForDefault input s).cursorAssigned (evalStateForDefault input s).awaitLoc
          = (ctx2, loc2, Except.ok v) →
        (evaluator api oe input s).2 = Except.ok (EvalResult.written (writer v))) ∧
    (∀ r t o, writer (Value.vRepl r) = r ∧ writer (Value.vStr t) = t ∧
      writer (Value.vOther o) = utilInspect o) := by
  refine ⟨?_, ?_, ?_, ?_, ?_⟩
  · intro h
    simp [evaluator, h]
  · intro h
    simp [evaluator, h]
  · intro h
    simp [evaluator, h]
  · intro hu hi hh ctx2 loc2 v hv
    unfold evaluator
    rw [if_neg hu, if_neg hi, if_neg hh, hv]
  · intro r t o
    exact ⟨rfl, rfl, rfl⟩

/-- Closed witness for C10: a use line yields the raw shell-API value, an
ordinary line yields the writer output of its evaluated value. -/
theorem c10_builtin_raw_vs_writer_witness :
    (evaluator apiN incrEval "use accounts" state0).2
        = Except.ok (EvalResult.raw (apiN.useResult (some "accounts"))) ∧
    (evaluator apiN incrEval "db.coll.find()" state0).2
        = Except.ok (EvalResult.written (writer (Value.vStr "done"))) :=
  ⟨(c10_builtin_raw_vs_writer apiN incrEval "use accounts" state0).1 (by decide),
    (c10_builtin_raw_vs_writer apiN incrEval "db.coll.find()" state0).2.2.2.1
      (by decide) (by decide) (by decide) 1 [] (Value.vStr "done") rfl⟩

/-- C6: prepareResult returns the re-binding statement originalCode =
modifiedCode exactly when the (trimmed) original code is a bare identifier,
and the modified code unchanged otherwise. -/
theorem c6_prepare_result (s m : String) :
    (isIdentifier s = true → prepareResult ⟨s, m⟩ = s ++ " = " ++ m) ∧
    (isIdentifier s = false → prepareResult ⟨s, m⟩ = m) := by
  constructor
  · intro h
    unfold prepareResult
    rw [if_pos h]
  · intro h
    unfold prepareResult
    rw [if_neg (by rw [h]; exact Bool.false_ne_true)]

/-- Closed witness for C6 at the test suite inputs: an identifier original
yields an assignment, a numeric original yields the modified code. -/
theorem c6_prepare_result_witness :
    prepareResult ⟨"fn", "f2"⟩ = "fn = f2" ∧ prepareResult ⟨"111", "222"⟩ = "222" :=
  ⟨(c6_prepare_result "fn" "f2").1 (by decide),
    (c6_prepare_result "111" "222").2 (by decide)⟩

/-- C7: isIdentifier accepts dotted identifier paths and names beginning
with a dollar sign, and rejects call expressions, bracket or string indexed
access, string and number literals, class declarations and arithmetic
expressions — the cases of the test suite. -/
theorem c7_is_identifier_cases :
    isIdentifier "db.test.find" = true ∧
    isIdentifier "$something" = true ∧
    isIdentifier "db.test.find()" = false ∧
    isIdentifier "db[\"test\"]find" = false ∧
    isIdentifier "\"some string\"" = false ∧
    isIdentifier "111" = false ∧
    isIdentifier "class A \x7b\x7d" = false ∧
    isIdentifier "1 + 2" = false := by
  decide

/-- C8: resolveEditorCommand returns the session configuration value
whenever one is present (also when the environment names an editor too),
returns the environment fallback when only the environment names one, and
fails with a message containing please define an external editor when
neither does. -/
theorem c8_resolve_editor_command (c e : String) :
    (∀ env : Option String, resolveEditorCommand (some c) env = Except.ok c) ∧
    resolveEditorCommand none (some e) = Except.ok e ∧
    resolveEditorCommand none none = Except.error noEditorMessage ∧
    ("please define an external editor".data).IsInfix noEditorMessage.data := by
  refine ⟨fun env => rfl, rfl, rfl, ?_⟩
  decide

/-- C9: getEditorContent returns the stored last edited content on an empty
argument when it is set, the empty string on an empty argument when it is
unset, the looked-up source representation of the bound value for a bare
identifier argument, and the argument unchanged otherwise. -/
theorem c9_get_editor_content (lookupSource : String → String) (lastC arg : String) :
    getEditorContent (some lastC) lookupSource "" = lastC ∧
    getEditorContent none lookupSource "" = "" ∧
    (arg ≠ "" → isIdentifier arg = true →
      ∀ lc, getEditorContent lc lookupSource arg = lookupSource arg) ∧
    (arg ≠ "" → isIdentifier arg = false →
      ∀ lc, getEditorContent lc lookupSource arg = arg) := by
  refine ⟨rfl, rfl, ?_, ?_⟩
  · intro ha hid lc
    unfold getEditorContent
    rw [if_neg ha, if_pos hid]
  · intro ha hid lc
    unfold getEditorContent
    rw [if_neg ha, if_neg (by rw [hid]; exact Bool.false_ne_true)]

/-- Closed witness for C9 at the test suite inputs: stored content reuse on
an empty argument, lookup of a dotted identifier, and pass-through of an
ordinary statement. -/
theorem c9_get_editor_content_witness :
    getEditorContent (some "db.test.find()") (fun i => "src " ++ i) "" = "db.test.find()" ∧
    getEditorContent none (fun i => "src " ++ i) "" = "" ∧
    getEditorContent (some "db.coll.find()") (fun i => "src " ++ i) "db.test.find"
      = "src db.test.find" ∧
    getEditorContent (some "db.coll.find()") (fun i => "src " ++ i) "1 + 1" = "1 + 1" :=
  ⟨(c9_get_editor_content (fun i => "src " ++ i) "db.test.find()" "x").1,
    (c9_get_editor_content (fun i => "src " ++ i) "db.test.find()" "x").2.1,
    (c9_get_editor_content (fun i => "src " ++ i) "db.coll.find()" "db.test.find").2.2.1
      (by decide) (by decide) (some "db.coll.find()"),
    (c9_get_editor_content (fun i => "src " ++ i) "db.coll.find()" "1 + 1").2.2.2
      (by decide) (by decide) (some "db.coll.find()")⟩
